import Mathlib

/-!
Shallow embedding of the device presence / notification core of the
`iot_nodered_rtmp_rtsp` repository:

* `src/lib/device-connection-service.ts` — `DeviceConnectionService`
  (connection registry, heartbeat monitor, stale-connection sweeper,
  status-change bus).
* `src/lib/video-stream-service.ts` — `DeviceNotificationService`
  (notification configs, dispatch, channel delivery).

JavaScript `Date` timestamps are modelled as natural numbers (milliseconds),
JS objects used as string maps (`metadata`) as association lists with
first-match lookup and spread-style merge, and the `Map` registry as an
association list keyed by device id. Effectful collaborators (Prisma writes,
audit log, WebSocket broadcasts, `EventEmitter` events) are modelled as
explicit output lists threaded through the state.
-/

namespace IotPresence

/-- `DeviceConnectionStatus` enum of `device-connection-service.ts`. -/
inductive DeviceConnectionStatus where
  | ONLINE
  | OFFLINE
  | INACTIVE
  | ERROR
deriving DecidableEq, Repr

/-- `DeviceProtocol` enum of `device-connection-service.ts`. -/
inductive DeviceProtocol where
  | MQTT
  | TCP
  | UDP
  | HTTP
  | WEBSOCKET
  | COAP
  | UNKNOWN
deriving DecidableEq, Repr

/-- The Prisma `ConnectionProtocol` enum (used in `deviceConnectionLog` rows). -/
inductive ConnectionProtocol where
  | MQTT
  | TCP
  | UDP
  | HTTP
  | WEBSOCKET
  | COAP
  | UNKNOWN
deriving DecidableEq, Repr

/-- The `switch (protocol)` conversion in `logConnectionStatus`. -/
def toDbProtocol : DeviceProtocol → ConnectionProtocol
  | .MQTT => .MQTT
  | .TCP => .TCP
  | .UDP => .UDP
  | .HTTP => .HTTP
  | .WEBSOCKET => .WEBSOCKET
  | .COAP => .COAP
  | .UNKNOWN => .UNKNOWN

/-- A JS object used as a string-keyed record (`metadata`, `data` payloads):
an association list; lookup takes the first matching key. -/
abbrev Obj := List (String × String)

/-- Lookup in an `Obj` (first binding wins, as for a JS object without
duplicate keys). -/
def objGet (o : Obj) (k : String) : Option String :=
  (o.find? (fun p => p.1 == k)).map (·.2)

/-- JS object spread `{...old, ...new}`: keys of `new` override keys of
`old`; remaining keys of `old` are preserved. -/
def objMerge (old new : Obj) : Obj :=
  old.filter (fun p => !((new.map (·.1)).contains p.1)) ++ new

/-- Association-list map keyed by `String` (the `Map<string, _>` registries). -/
abbrev SMap (α : Type) := List (String × α)

/-- `Map.get`. -/
def mapLookup {α : Type} (m : SMap α) (k : String) : Option α :=
  (m.find? (fun p => p.1 == k)).map (·.2)

/-- `Map.set` (replace any existing binding for `k`). -/
def mapSet {α : Type} (m : SMap α) (k : String) (v : α) : SMap α :=
  (k, v) :: m.filter (fun p => !(p.1 == k))

/-- `Map.delete`. -/
def mapDelete {α : Type} (m : SMap α) (k : String) : SMap α :=
  m.filter (fun p => !(p.1 == k))

/-- The durable `Device` row (the fields this service reads:
`id`, `identifier`, plus `organizationId`/`name` used by the
notification service). -/
structure Device where
  id : String
  identifier : String
  name : String
  organizationId : Option String
deriving DecidableEq, Repr

/-- The `DeviceConnectionInfo` interface of `device-connection-service.ts`.
Optional (`?`) fields are `Option`s; `Date`s are millisecond timestamps. -/
structure DeviceConnectionInfo where
  deviceId : String
  deviceIdentifier : String
  status : DeviceConnectionStatus
  protocol : DeviceProtocol
  address : Option String := none
  port : Option Nat := none
  clientId : Option String := none
  lastActivityAt : Nat
  connectedAt : Option Nat := none
  disconnectedAt : Option Nat := none
  connectionDuration : Option Nat := none
  sessionId : Option String := none
  metadata : Option Obj := none
deriving DecidableEq, Repr

/-- The `Partial<DeviceConnectionInfo>` argument of `setDeviceStatus`,
restricted to the fields the service's call sites actually supply
(`address`, `port`, `clientId`, `lastActivityAt`, `metadata`); a `some`
field is a key present in the partial object and overrides, via the
spread `...connectionInfo`, the value `setDeviceStatus` computed. -/
structure PartialConnectionInfo where
  address : Option String := none
  port : Option Nat := none
  clientId : Option String := none
  lastActivityAt : Option Nat := none
  metadata : Option Obj := none
deriving DecidableEq, Repr

/-- Spread `{...base, ...connectionInfo}` for a possibly-absent partial. -/
def applyPartial (base : DeviceConnectionInfo)
    (ci : Option PartialConnectionInfo) : DeviceConnectionInfo :=
  match ci with
  | none => base
  | some p =>
    { base with
      address := if p.address.isSome then p.address else base.address,
      port := if p.port.isSome then p.port else base.port,
      clientId := if p.clientId.isSome then p.clientId else base.clientId,
      lastActivityAt := p.lastActivityAt.getD base.lastActivityAt,
      metadata := if p.metadata.isSome then p.metadata else base.metadata }

/-- Events observable from `emitStatusChange`: the `EventEmitter` events
(`status_change` plus the status-specific one) and the WebSocket room
broadcast of `device:status_change`. -/
inductive BusEvent where
  | status_change (deviceId : String) (newC : DeviceConnectionInfo)
      (oldC : Option DeviceConnectionInfo)
  | device_online (deviceId : String) (c : DeviceConnectionInfo)
  | device_offline (deviceId : String) (c : DeviceConnectionInfo)
  | device_inactive (deviceId : String) (c : DeviceConnectionInfo)
  | device_error (deviceId : String) (c : DeviceConnectionInfo)
  | ws_room_status (room : String) (deviceId : String)
      (status : DeviceConnectionStatus)
deriving DecidableEq, Repr

/-- A `deviceConnectionLog` row created by `logConnectionStatus` (the
fields passed to `prisma.deviceConnectionLog.create`). -/
structure LogEntry where
  deviceId : String
  status : DeviceConnectionStatus
  protocol : ConnectionProtocol
  clientId : Option String
  ipAddress : Option String
  port : Option Nat
  connectedAt : Option Nat
  disconnectedAt : Option Nat
  connectionDuration : Option Nat
  sessionId : Option String
  metadata : Option Obj
deriving DecidableEq, Repr

/-- Build the `deviceConnectionLog` row from the arguments of
`logConnectionStatus`. -/
def mkLogEntry (deviceId : String) (status : DeviceConnectionStatus)
    (protocol : DeviceProtocol) (ci : DeviceConnectionInfo) : LogEntry :=
  { deviceId := deviceId
    status := status
    protocol := toDbProtocol protocol
    clientId := ci.clientId
    ipAddress := ci.address
    port := ci.port
    connectedAt := ci.connectedAt
    disconnectedAt := ci.disconnectedAt
    connectionDuration := ci.connectionDuration
    sessionId := ci.sessionId
    metadata := ci.metadata }

/-- The observable state of `DeviceConnectionService`: the in-memory
registry (`deviceConnections`), the device ids holding a heartbeat timer
(`heartbeatIntervals`), the persisted connection log, and the published
bus events (oldest first). -/
structure RegistryState where
  connections : SMap DeviceConnectionInfo
  heartbeats : List String
  logs : List LogEntry
  events : List BusEvent
deriving Repr

/-- The status-specific event emitted by the `if/else if` chain of
`emitStatusChange`. -/
def specificEvent (deviceId : String) (newC : DeviceConnectionInfo) : BusEvent :=
  match newC.status with
  | .ONLINE => BusEvent.device_online deviceId newC
  | .OFFLINE => BusEvent.device_offline deviceId newC
  | .INACTIVE => BusEvent.device_inactive deviceId newC
  | .ERROR => BusEvent.device_error deviceId newC

/-- The unconditional tail of `emitStatusChange`: the general
`status_change` event, the status-specific event, and the WebSocket room
broadcast of `device:status_change`. -/
def emitStatusChangeEvents (deviceId : String) (newC : DeviceConnectionInfo)
    (oldC : Option DeviceConnectionInfo) : List BusEvent :=
  [BusEvent.status_change deviceId newC oldC,
   specificEvent deviceId newC,
   BusEvent.ws_room_status ("device:" ++ deviceId) deviceId newC.status]

/-- `emitStatusChange`: suppressed when an old record exists with the same
status; otherwise publishes `status_change`, the status-specific event and
the WebSocket room broadcast. -/
def emitStatusChange (deviceId : String) (newC : DeviceConnectionInfo)
    (oldC : Option DeviceConnectionInfo) : List BusEvent :=
  match oldC with
  | some o =>
    if o.status = newC.status then []
    else emitStatusChangeEvents deviceId newC oldC
  | none => emitStatusChangeEvents deviceId newC oldC

/-- The `connectionData` record built by `setDeviceStatus`: the fresh base
record, the spread of the partial argument, and the status-dependent
`connectedAt`/`sessionId`/`disconnectedAt`/`connectionDuration` rules. -/
def buildConnectionData (device : Device)
    (existingConnection : Option DeviceConnectionInfo) (deviceId : String)
    (status : DeviceConnectionStatus) (protocol : DeviceProtocol)
    (connectionInfo : Option PartialConnectionInfo) (now : Nat)
    (sid : String) : DeviceConnectionInfo :=
  let base : DeviceConnectionInfo :=
    { deviceId := deviceId
      deviceIdentifier := device.identifier
      status := status
      protocol := protocol
      lastActivityAt := now }
  let cd0 := applyPartial base connectionInfo
  match status with
  | .ONLINE =>
    let cd1 :=
      match existingConnection with
      | some ec =>
        if ec.status ≠ DeviceConnectionStatus.ONLINE then
          { cd0 with connectedAt := some now, sessionId := some sid }
        else
          { cd0 with connectedAt := ec.connectedAt, sessionId := ec.sessionId }
      | none => { cd0 with connectedAt := some now, sessionId := some sid }
    { cd1 with disconnectedAt := none }
  | .OFFLINE =>
    let cd1 := { cd0 with disconnectedAt := some now }
    match existingConnection with
    | some ec =>
      match ec.connectedAt with
      | some cAt => { cd1 with connectionDuration := some ((now - cAt) / 1000) }
      | none => cd1
    | none => cd1
  | _ => cd0

/-- Heartbeat-timer bookkeeping of `setDeviceStatus`: `setupHeartbeat`
(clear then install) on ONLINE, `clearHeartbeat` on OFFLINE. -/
def setHeartbeats (hb : List String) (deviceId : String)
    (status : DeviceConnectionStatus) : List String :=
  match status with
  | .ONLINE => deviceId :: hb.filter (fun x => !(x == deviceId))
  | .OFFLINE => hb.filter (fun x => !(x == deviceId))
  | _ => hb

/-- `setDeviceStatus(deviceId, status, protocol, connectionInfo?)`.

Inputs beyond the TS arguments: `db` is the durable device store read by
`getDeviceById`, `now` the current time, and `sid` the value
`generateSessionId()` would return. On the `Device not found` throw the
state is returned unchanged (the throw happens before any mutation). The
`prisma.device.update` status write is not part of the observed state. -/
def setDeviceStatus (db : SMap Device) (st : RegistryState)
    (deviceId : String) (status : DeviceConnectionStatus)
    (protocol : DeviceProtocol) (connectionInfo : Option PartialConnectionInfo)
    (now : Nat) (sid : String) :
    Except String DeviceConnectionInfo × RegistryState :=
  match mapLookup db deviceId with
  | none => (.error ("Device with ID " ++ deviceId ++ " not found"), st)
  | some device =>
    let existingConnection := mapLookup st.connections deviceId
    let cd := buildConnectionData device existingConnection deviceId status
      protocol connectionInfo now sid
    (.ok cd,
     { connections := mapSet st.connections deviceId cd
       heartbeats := setHeartbeats st.heartbeats deviceId status
       logs := st.logs ++ [mkLogEntry deviceId status protocol cd]
       events := st.events ++ emitStatusChange deviceId cd existingConnection })

/-- The 24-hour eviction threshold of `cleanupInactiveConnections`
(`24 * 60 * 60 * 1000` milliseconds). -/
def CLEANUP_THRESHOLD : Nat := 24 * 60 * 60 * 1000

/-- The selection test of `cleanupInactiveConnections`: status INACTIVE or
ERROR and more than 24 hours since `lastActivityAt`. -/
def cleanupCriterion (now : Nat) (c : DeviceConnectionInfo) : Bool :=
  (c.status == DeviceConnectionStatus.INACTIVE
     || c.status == DeviceConnectionStatus.ERROR)
  && decide (now - c.lastActivityAt > CLEANUP_THRESHOLD)

/-- The record passed to `logConnectionStatus` by the sweeper: the current
record forced OFFLINE with `disconnectedAt` and `metadata.cleanupReason`. -/
def cleanupRecord (c : DeviceConnectionInfo) (now : Nat) : DeviceConnectionInfo :=
  { c with
    status := DeviceConnectionStatus.OFFLINE
    disconnectedAt := some now
    metadata := some (objMerge (c.metadata.getD [])
      [("cleanupReason", "Inactive for more than 24 hours")]) }

/-- One iteration of the sweeper's cleanup loop for one device id:
re-look up the record, log the forced OFFLINE transition, delete the
record and clear its heartbeat. No bus event is published. -/
def cleanupOne (now : Nat) (s : RegistryState) (deviceId : String) :
    RegistryState :=
  match mapLookup s.connections deviceId with
  | none => s
  | some connection =>
    { s with
      logs := s.logs ++
        [mkLogEntry deviceId DeviceConnectionStatus.OFFLINE connection.protocol
          (cleanupRecord connection now)]
      connections := mapDelete s.connections deviceId
      heartbeats := s.heartbeats.filter (fun x => !(x == deviceId)) }

/-- `cleanupInactiveConnections` (the Stale-Connection Sweeper body):
collect the device ids matching the criterion, then clean each one up. -/
def cleanupInactiveConnections (st : RegistryState) (now : Nat) :
    RegistryState :=
  let devicesToCleanup :=
    (st.connections.filter (fun p => cleanupCriterion now p.2)).map (·.1)
  devicesToCleanup.foldl (cleanupOne now) st

/-- The inactivity threshold of the heartbeat timer callback
(`INACTIVE_THRESHOLD = 300000` ms). -/
def INACTIVE_THRESHOLD : Nat := 300000

/-- One firing of the per-device heartbeat timer installed by
`setupHeartbeat`: if the record is gone the timer clears itself; if the
record has been inactive past the threshold the device is transitioned to
INACTIVE through `setDeviceStatus` (preserving `lastActivityAt` and
recording `metadata.inactiveReason`), publishing exactly the events a live
signal would. -/
def heartbeatTick (db : SMap Device) (st : RegistryState) (deviceId : String)
    (now : Nat) (sid : String) : RegistryState :=
  match mapLookup st.connections deviceId with
  | none => { st with heartbeats := st.heartbeats.filter (fun x => !(x == deviceId)) }
  | some connection =>
    if now - connection.lastActivityAt > INACTIVE_THRESHOLD then
      (setDeviceStatus db st deviceId DeviceConnectionStatus.INACTIVE
        connection.protocol
        (some { lastActivityAt := some connection.lastActivityAt
                metadata := some (objMerge (connection.metadata.getD [])
                  [("inactiveReason", "Heartbeat timeout")]) })
        now sid).2
    else st

/-- `getOnlineDeviceCount`: count registry records whose status is ONLINE. -/
def getOnlineDeviceCount (st : RegistryState) : Nat :=
  st.connections.foldl
    (fun count p =>
      if p.2.status = DeviceConnectionStatus.ONLINE then count + 1 else count)
    0

/-- The per-protocol counters built by `getDeviceConnectionStatsByProtocol`. -/
structure ProtocolStats where
  mqtt : Nat := 0
  tcp : Nat := 0
  udp : Nat := 0
  http : Nat := 0
  websocket : Nat := 0
  coap : Nat := 0
  unknown : Nat := 0
deriving DecidableEq, Repr

/-- `stats[connection.protocol]++`. -/
def ProtocolStats.bump (s : ProtocolStats) : DeviceProtocol → ProtocolStats
  | .MQTT => { s with mqtt := s.mqtt + 1 }
  | .TCP => { s with tcp := s.tcp + 1 }
  | .UDP => { s with udp := s.udp + 1 }
  | .HTTP => { s with http := s.http + 1 }
  | .WEBSOCKET => { s with websocket := s.websocket + 1 }
  | .COAP => { s with coap := s.coap + 1 }
  | .UNKNOWN => { s with unknown := s.unknown + 1 }

/-- Read one protocol's counter (`stats[p]`). -/
def ProtocolStats.get (s : ProtocolStats) : DeviceProtocol → Nat
  | .MQTT => s.mqtt
  | .TCP => s.tcp
  | .UDP => s.udp
  | .HTTP => s.http
  | .WEBSOCKET => s.websocket
  | .COAP => s.coap
  | .UNKNOWN => s.unknown

/-- `getDeviceConnectionStatsByProtocol`: start from all-zero counters and
bump the counter of each ONLINE record's protocol. -/
def getDeviceConnectionStatsByProtocol (st : RegistryState) : ProtocolStats :=
  st.connections.foldl
    (fun stats p =>
      if p.2.status = DeviceConnectionStatus.ONLINE then stats.bump p.2.protocol
      else stats)
    {}

/-- `updateDeviceActivity(deviceId, metadata?)`. -/
def updateDeviceActivity (st : RegistryState) (deviceId : String)
    (metadata : Option Obj) (now : Nat) : RegistryState :=
  match mapLookup st.connections deviceId with
  | none => st
  | some connection =>
    let c1 := { connection with lastActivityAt := now }
    let c2 :=
      match metadata with
      | some m =>
        { c1 with metadata := some (objMerge (c1.metadata.getD []) m) }
      | none => c1
    { st with connections := mapSet st.connections deviceId c2 }

/-- `NotificationType` enum of `video-stream-service.ts`. -/
inductive NotificationType where
  | DEVICE_ONLINE
  | DEVICE_OFFLINE
  | DEVICE_INACTIVE
  | DEVICE_ERROR
  | DEVICE_ALARM
  | DEVICE_COMMAND_RESPONSE
  | DEVICE_DATA_ANOMALY
  | SYSTEM_ERROR
deriving DecidableEq, Repr

/-- `NotificationChannel` enum of `video-stream-service.ts`. -/
inductive NotificationChannel where
  | WEBSOCKET
  | EMAIL
  | SMS
  | PUSH
  | WEBHOOK
deriving DecidableEq, Repr

/-- `NotificationPriority` enum of `video-stream-service.ts`. -/
inductive NotificationPriority where
  | LOW
  | MEDIUM
  | HIGH
  | CRITICAL
deriving DecidableEq, Repr

/-- The `NotificationConfig` interface (the `template`/`config` extras are
not read by the dispatch path and are omitted). -/
structure NotificationConfig where
  type : NotificationType
  channels : List NotificationChannel
  priority : NotificationPriority
  enabled : Bool
deriving DecidableEq, Repr

/-- The Prisma `Organization` row as read by the notification service
(only `name` is used). -/
structure Organization where
  id : String
  name : String
deriving DecidableEq, Repr

/-- The `data` payload attached to a device-status notification message. -/
structure MessageData where
  status : DeviceConnectionStatus
  protocol : DeviceProtocol
  address : Option String
  port : Option Nat
  lastActivityAt : Nat
  connectedAt : Option Nat
  disconnectedAt : Option Nat
  connectionDuration : Option Nat
deriving DecidableEq, Repr

/-- The `NotificationMessage` interface. -/
structure NotificationMessage where
  id : String
  type : NotificationType
  title : String
  content : String
  timestamp : Nat
  priority : NotificationPriority
  deviceId : Option String := none
  deviceIdentifier : Option String := none
  deviceName : Option String := none
  organizationId : Option String := none
  organizationName : Option String := none
  data : Option MessageData := none
  read : Option Bool := none
  readAt : Option Nat := none
  readBy : Option String := none
deriving DecidableEq, Repr

/-- The `switch (status)` of `sendDeviceStatusNotification` mapping a
connection status to a notification type (all four statuses are covered,
so the `default: return` branch is unreachable). -/
def notificationTypeOf : DeviceConnectionStatus → NotificationType
  | .ONLINE => .DEVICE_ONLINE
  | .OFFLINE => .DEVICE_OFFLINE
  | .INACTIVE => .DEVICE_INACTIVE
  | .ERROR => .DEVICE_ERROR

/-- String form of a protocol, as interpolated into message contents. -/
def DeviceProtocol.toName : DeviceProtocol → String
  | .MQTT => "MQTT"
  | .TCP => "TCP"
  | .UDP => "UDP"
  | .HTTP => "HTTP"
  | .WEBSOCKET => "WEBSOCKET"
  | .COAP => "COAP"
  | .UNKNOWN => "UNKNOWN"

/-- `generateNotificationTitle`. -/
def generateNotificationTitle (type : NotificationType) (device : Device) :
    String :=
  match type with
  | .DEVICE_ONLINE => "设备上线: " ++ device.name
  | .DEVICE_OFFLINE => "设备离线: " ++ device.name
  | .DEVICE_INACTIVE => "设备不活跃: " ++ device.name
  | .DEVICE_ERROR => "设备错误: " ++ device.name
  | .DEVICE_ALARM => "设备告警: " ++ device.name
  | .DEVICE_COMMAND_RESPONSE => "设备命令响应: " ++ device.name
  | .DEVICE_DATA_ANOMALY => "设备数据异常: " ++ device.name
  | .SYSTEM_ERROR => "系统错误"

/-- `generateNotificationContent`; `time` is the `toLocaleString()` of the
current date and date rendering of `lastActivityAt` is abstracted as the
decimal millisecond timestamp. -/
def generateNotificationContent (type : NotificationType) (device : Device)
    (connectionInfo : DeviceConnectionInfo) (time : String) : String :=
  match type with
  | .DEVICE_ONLINE =>
    "设备 " ++ device.name ++ "(" ++ device.identifier ++ ") 于 " ++ time
      ++ " 上线。连接协议: " ++ connectionInfo.protocol.toName
  | .DEVICE_OFFLINE =>
    "设备 " ++ device.name ++ "(" ++ device.identifier ++ ") 于 " ++ time
      ++ " 离线。连接持续时间: "
      ++ toString (connectionInfo.connectionDuration.getD 0) ++ " 秒"
  | .DEVICE_INACTIVE =>
    "设备 " ++ device.name ++ "(" ++ device.identifier ++ ") 于 " ++ time
      ++ " 变为不活跃状态。最后活动时间: "
      ++ toString connectionInfo.lastActivityAt
  | .DEVICE_ERROR =>
    "设备 " ++ device.name ++ "(" ++ device.identifier ++ ") 于 " ++ time
      ++ " 发生错误。请检查设备状态。"
  | _ => "设备 " ++ device.name ++ "(" ++ device.identifier ++ ") 状态变更通知。"

/-- `loadDefaultConfigs`. -/
def defaultConfigs : List NotificationConfig :=
  [{ type := .DEVICE_ONLINE, channels := [.WEBSOCKET],
     priority := .LOW, enabled := true },
   { type := .DEVICE_OFFLINE, channels := [.WEBSOCKET],
     priority := .MEDIUM, enabled := true },
   { type := .DEVICE_INACTIVE, channels := [.WEBSOCKET, .EMAIL],
     priority := .MEDIUM, enabled := true },
   { type := .DEVICE_ERROR, channels := [.WEBSOCKET, .EMAIL],
     priority := .HIGH, enabled := true },
   { type := .DEVICE_ALARM, channels := [.WEBSOCKET, .EMAIL, .SMS],
     priority := .HIGH, enabled := true },
   { type := .DEVICE_COMMAND_RESPONSE, channels := [.WEBSOCKET],
     priority := .LOW, enabled := true },
   { type := .DEVICE_DATA_ANOMALY, channels := [.WEBSOCKET, .EMAIL],
     priority := .MEDIUM, enabled := true },
   { type := .SYSTEM_ERROR, channels := [.WEBSOCKET, .EMAIL],
     priority := .CRITICAL, enabled := true }]

/-- Observable effects of the notification dispatch path: WebSocket room
broadcasts of `notification`, the channel helper invocations, the
`notification_sent` emitter event, and the audit row of `logNotification`. -/
inductive NotifyEffect where
  | wsRoom (room : String) (msg : NotificationMessage)
  | emailSend (msg : NotificationMessage)
  | smsSend (msg : NotificationMessage)
  | pushSend (msg : NotificationMessage)
  | webhookSend (msg : NotificationMessage)
  | sentEvent (msg : NotificationMessage)
  | auditNotificationLog (msg : NotificationMessage)
deriving DecidableEq, Repr

/-- `sendWebSocketNotification`: device room, organization room, and — for
HIGH/CRITICAL priority — the system-wide `notifications` room. -/
def sendWebSocketNotification (message : NotificationMessage) :
    List NotifyEffect :=
  (match message.deviceId with
   | some d => [NotifyEffect.wsRoom ("device:" ++ d) message]
   | none => [])
  ++ (match message.organizationId with
      | some o => [NotifyEffect.wsRoom ("organization:" ++ o) message]
      | none => [])
  ++ (if message.priority = NotificationPriority.HIGH
        ∨ message.priority = NotificationPriority.CRITICAL then
        [NotifyEffect.wsRoom "notifications" message]
      else [])

/-- One iteration of the `switch (channel)` in `sendNotification`. -/
def dispatchChannel (message : NotificationMessage) :
    NotificationChannel → List NotifyEffect
  | .WEBSOCKET => sendWebSocketNotification message
  | .EMAIL => [NotifyEffect.emailSend message]
  | .SMS => [NotifyEffect.smsSend message]
  | .PUSH => [NotifyEffect.pushSend message]
  | .WEBHOOK => [NotifyEffect.webhookSend message]

/-- `sendNotification(message, channels)`: dispatch to each listed channel
in order, then emit `notification_sent`. -/
def sendNotification (message : NotificationMessage)
    (channels : List NotificationChannel) : List NotifyEffect :=
  (channels.flatMap (dispatchChannel message)) ++ [NotifyEffect.sentEvent message]

/-- Environment of `DeviceNotificationService`: the durable device and
organization tables, the per-organization config store and the default
configs, plus the values `generateNotificationId()` / `new Date()` would
produce for the message being built. -/
structure NotifyEnv where
  devices : SMap Device
  orgs : SMap Organization
  notificationConfigs : SMap (List NotificationConfig)
  defaults : List NotificationConfig
  nid : String
  ts : Nat
  timeStr : String
deriving Repr

/-- `getNotificationConfigs(organizationId)`: the organization's configs,
falling back to the defaults. -/
def getNotificationConfigs (env : NotifyEnv) (organizationId : String) :
    List NotificationConfig :=
  (mapLookup env.notificationConfigs organizationId).getD env.defaults

/-- A record of one `sendNotification(message, channels)` invocation;
its loop performs exactly one delivery attempt per listed channel. -/
abbrev SendCall := NotificationMessage × List NotificationChannel

/-- `sendDeviceStatusNotification(deviceId, status, connectionInfo)`:
resolve the device and its organization config, build the message, fan it
out and log it. Returns the `sendNotification` invocations and the
resulting effects. -/
def sendDeviceStatusNotification (env : NotifyEnv) (deviceId : String)
    (status : DeviceConnectionStatus) (connectionInfo : DeviceConnectionInfo) :
    List SendCall × List NotifyEffect :=
  match mapLookup env.devices deviceId with
  | none => ([], [])
  | some device =>
    let notificationType := notificationTypeOf status
    let organizationId := device.organizationId.getD "default"
    let configs := getNotificationConfigs env organizationId
    match configs.find? (fun config =>
        config.type == notificationType && config.enabled) with
    | none => ([], [])
    | some matchingConfig =>
      let message : NotificationMessage :=
        { id := env.nid
          type := notificationType
          title := generateNotificationTitle notificationType device
          content := generateNotificationContent notificationType device
            connectionInfo env.timeStr
          timestamp := env.ts
          priority := matchingConfig.priority
          deviceId := some deviceId
          deviceIdentifier := some device.identifier
          deviceName := some device.name
          organizationId := device.organizationId
          organizationName :=
            (device.organizationId.bind (mapLookup env.orgs)).map (·.name)
          data := some
            { status := status
              protocol := connectionInfo.protocol
              address := connectionInfo.address
              port := connectionInfo.port
              lastActivityAt := connectionInfo.lastActivityAt
              connectedAt := connectionInfo.connectedAt
              disconnectedAt := connectionInfo.disconnectedAt
              connectionDuration := connectionInfo.connectionDuration } }
      ([(message, matchingConfig.channels)],
       sendNotification message matchingConfig.channels
         ++ [NotifyEffect.auditNotificationLog message])

/-- The `setupEventListeners` wiring of `DeviceNotificationService`: the
reaction to one bus event. Both the general `status_change` listener and
each status-specific listener invoke `sendDeviceStatusNotification`. -/
def handleBusEvent (env : NotifyEnv) :
    BusEvent → List SendCall × List NotifyEffect
  | .status_change deviceId newC _ =>
    sendDeviceStatusNotification env deviceId newC.status newC
  | .device_online deviceId c =>
    sendDeviceStatusNotification env deviceId DeviceConnectionStatus.ONLINE c
  | .device_offline deviceId c =>
    sendDeviceStatusNotification env deviceId DeviceConnectionStatus.OFFLINE c
  | .device_inactive deviceId c =>
    sendDeviceStatusNotification env deviceId DeviceConnectionStatus.INACTIVE c
  | .device_error deviceId c =>
    sendDeviceStatusNotification env deviceId DeviceConnectionStatus.ERROR c
  | .ws_room_status _ _ _ => ([], [])

/-- The notification service's reaction to a list of published bus events. -/
def notifyForEvents (env : NotifyEnv) (events : List BusEvent) :
    List SendCall × List NotifyEffect :=
  (events.flatMap (fun e => (handleBusEvent env e).1),
   events.flatMap (fun e => (handleBusEvent env e).2))

/-- Number of delivery attempts on channel `ch` across a list of
`sendNotification` invocations: the dispatch loop attempts each listed
channel exactly once per call. -/
def channelAttempts (calls : List SendCall) (ch : NotificationChannel) : Nat :=
  (calls.map (fun c => c.2.count ch)).sum

/-- Number of deliveries to the system-wide `notifications` room among a
list of effects. -/
def systemWideDeliveries (effects : List NotifyEffect) : Nat :=
  effects.countP (fun e =>
    match e with
    | NotifyEffect.wsRoom room _ => room == "notifications"
    | _ => false)

/-- Number of `device_offline` bus events in a list. -/
def offlineEventCount (events : List BusEvent) : Nat :=
  events.countP (fun e =>
    match e with
    | BusEvent.device_offline _ _ => true
    | _ => false)

/-- Sum of the seven per-protocol counters. -/
def ProtocolStats.total (s : ProtocolStats) : Nat :=
  s.mqtt + s.tcp + s.udp + s.http + s.websocket + s.coap + s.unknown

/-! ### Concrete fixtures used by witnesses and counterexamples -/

/-- A device row present in the durable store. -/
def devT : Device :=
  { id := "d", identifier := "i", name := "n", organizationId := some "org1" }

/-- A one-device durable store. -/
def dbT : SMap Device := [("d", devT)]

/-- The empty registry state. -/
def st0 : RegistryState :=
  { connections := [], heartbeats := [], logs := [], events := [] }

/-- First call of the C4 scenario: the TCP adapter reports ONLINE with
address, port, client id and metadata. -/
def c4st1 : RegistryState :=
  (setDeviceStatus dbT st0 "d" .ONLINE .TCP
    (some { address := some "1.2.3.4", port := some 5, clientId := some "c1",
            metadata := some [("k", "v")] }) 0 "s1").2

/-- Second call of the C4 scenario: another ONLINE signal with no partial
record. -/
def c4res2 : Except String DeviceConnectionInfo × RegistryState :=
  setDeviceStatus dbT c4st1 "d" .ONLINE .TCP none 1 "s2"

/-- C7 trace: device comes ONLINE at t = 0. -/
def c7stA : RegistryState := (setDeviceStatus dbT st0 "d" .ONLINE .MQTT none 0 "s1").2

/-- C7 trace: device transitions to INACTIVE at t = 1000 and stays there. -/
def c7stB : RegistryState := (setDeviceStatus dbT c7stA "d" .INACTIVE .MQTT none 1000 "s2").2

/-- C7 trace: a protocol activity signal arrives at t = 25 h (status is
untouched, only `lastActivityAt` moves). -/
def c7stC : RegistryState := updateDeviceActivity c7stB "d" none 90000000

/-- C7 trace: the sweeper runs at t = 25 h + 1 ms. -/
def c7stD : RegistryState := cleanupInactiveConnections c7stC 90000001

/-- C8 scenario: a record is INACTIVE with `lastActivityAt = 0`. -/
def c8stE : RegistryState := (setDeviceStatus dbT st0 "d" .INACTIVE .MQTT none 0 "s1").2

/-- C8 scenario: the sweeper runs 25 h later and evicts the record. -/
def c8stF : RegistryState := cleanupInactiveConnections c8stE 90000000

/-- An ONLINE record for the C1 scenario. -/
def c1on : DeviceConnectionInfo :=
  { deviceId := "d", deviceIdentifier := "i", status := .ONLINE,
    protocol := .MQTT, lastActivityAt := 0, connectedAt := some 0,
    sessionId := some "s1" }

/-- Registry state with the device ONLINE, before the OFFLINE transition. -/
def c1stOn : RegistryState :=
  { connections := [("d", c1on)], heartbeats := ["d"], logs := [], events := [] }

/-- The single OFFLINE transition of the C1 scenario. -/
def c1resOff : Except String DeviceConnectionInfo × RegistryState :=
  setDeviceStatus dbT c1stOn "d" .OFFLINE .MQTT none 10 "s2"

/-- The organization's DEVICE_OFFLINE config: enabled, channels
`{EMAIL, SMS}`, priority MEDIUM. -/
def c1cfg : NotificationConfig :=
  { type := .DEVICE_OFFLINE, channels := [.EMAIL, .SMS],
    priority := .MEDIUM, enabled := true }

/-- Notification environment for the C1 scenario (enabled config). -/
def c1env : NotifyEnv :=
  { devices := dbT, orgs := [("org1", { id := "org1", name := "Org" })],
    notificationConfigs := [("org1", [c1cfg])],
    defaults := defaultConfigs, nid := "n1", ts := 100, timeStr := "T" }

/-- Same environment with the DEVICE_OFFLINE config disabled. -/
def c1envDisabled : NotifyEnv :=
  { c1env with
    notificationConfigs := [("org1", [{ c1cfg with enabled := false }])] }

/-- A HIGH-priority message whose config channels omit WEBSOCKET. -/
def c2msgH : NotificationMessage :=
  { id := "m", type := .DEVICE_OFFLINE, title := "t", content := "c",
    timestamp := 0, priority := .HIGH, deviceId := some "d",
    organizationId := none }

/-- A stale ERROR record used by the C7 witness. -/
def c7werr : DeviceConnectionInfo :=
  { deviceId := "e", deviceIdentifier := "ie", status := .ERROR,
    protocol := .TCP, lastActivityAt := 0 }

/-- A fresh ONLINE record used by the C7 witness. -/
def c7won : DeviceConnectionInfo :=
  { deviceId := "f", deviceIdentifier := "if", status := .ONLINE,
    protocol := .MQTT, lastActivityAt := 89999999 }

/-- Registry with one stale ERROR record and one fresh ONLINE record. -/
def c7wst : RegistryState :=
  { connections := [("e", c7werr), ("f", c7won)], heartbeats := ["f"],
    logs := [], events := [] }

/-- Registry state used by the C9 witness: one ONLINE record. -/
def c9st : RegistryState :=
  { connections := [("d", c1on)], heartbeats := ["d"], logs := [], events := [] }

/-- The record produced by the C3 witness call. -/
def c3c : DeviceConnectionInfo :=
  { deviceId := "d", deviceIdentifier := "i", status := .ONLINE,
    protocol := .MQTT, lastActivityAt := 5, connectedAt := some 5,
    sessionId := some "s" }

/-- The state after the C3 witness call. -/
def c3st : RegistryState := (setDeviceStatus dbT st0 "d" .ONLINE .MQTT none 5 "s").2

/-- The record stored by the first C4 call (all partial fields present). -/
def c4prior : DeviceConnectionInfo :=
  { deviceId := "d", deviceIdentifier := "i", status := .ONLINE,
    protocol := .TCP, address := some "1.2.3.4", port := some 5,
    clientId := some "c1", lastActivityAt := 0, connectedAt := some 0,
    sessionId := some "s1", metadata := some [("k", "v")] }

/-- The record produced by the second C4 call (partial fields dropped). -/
def c4c2 : DeviceConnectionInfo :=
  { deviceId := "d", deviceIdentifier := "i", status := .ONLINE,
    protocol := .TCP, lastActivityAt := 1, connectedAt := some 0,
    sessionId := some "s1" }

/-- The state after the second C4 call. -/
def c4st2 : RegistryState := c4res2.2

/-- The OFFLINE record produced by the C1 transition
(`connectionDuration = (10 - 0) / 1000 = 0`). -/
def c1off : DeviceConnectionInfo :=
  { deviceId := "d", deviceIdentifier := "i", status := .OFFLINE,
    protocol := .MQTT, lastActivityAt := 10, disconnectedAt := some 10,
    connectionDuration := some 0 }

/-- The record produced by the first C5 witness call. -/
def c5c1 : DeviceConnectionInfo :=
  { deviceId := "d", deviceIdentifier := "i", status := .ONLINE,
    protocol := .MQTT, lastActivityAt := 5, connectedAt := some 5,
    sessionId := some "s" }

/-- The state after the first C5 witness call. -/
def c5st1 : RegistryState := (setDeviceStatus dbT st0 "d" .ONLINE .MQTT none 5 "s").2

/-- The record produced by the second C5 witness call: only
`lastActivityAt` differs from `c5c1`. -/
def c5c2 : DeviceConnectionInfo :=
  { deviceId := "d", deviceIdentifier := "i", status := .ONLINE,
    protocol := .MQTT, lastActivityAt := 9, connectedAt := some 5,
    sessionId := some "s" }

/-- The state after the second C5 witness call. -/
def c5st2 : RegistryState := (setDeviceStatus dbT c5st1 "d" .ONLINE .MQTT none 9 "z").2

/-! ### Association-list map lemmas -/

theorem find_key_filter_ne {α : Type} (m : SMap α) (k k' : String)
    (h : k' ≠ k) :
    (m.filter (fun p => !(p.1 == k))).find? (fun p => p.1 == k')
      = m.find? (fun p => p.1 == k') := by
  induction m with
  | nil => rfl
  | cons p t ih =>
    rw [List.filter_cons]
    by_cases hp : p.1 = k
    · have h1 : (!(p.1 == k)) = false := by simp [hp]
      have h2 : (p.1 == k') = false := by
        simp only [beq_eq_false_iff_ne, ne_eq]
        exact fun he => h (hp ▸ he).symm
      rw [h1]
      simp only [Bool.false_eq_true, if_false]
      rw [ih, List.find?_cons, h2]
    · have h1 : (!(p.1 == k)) = true := by simp [hp]
      rw [h1, if_pos rfl, List.find?_cons, List.find?_cons]
      cases hq : (p.1 == k') with
      | true => rfl
      | false => exact ih

theorem mapLookup_mapSet_self {α : Type} (m : SMap α) (k : String) (v : α) :
    mapLookup (mapSet m k v) k = some v := by
  simp only [mapLookup, mapSet, List.find?_cons, beq_self_eq_true]
  rfl

theorem mapLookup_mapSet_ne {α : Type} (m : SMap α) (k k' : String) (v : α)
    (h : k' ≠ k) : mapLookup (mapSet m k v) k' = mapLookup m k' := by
  unfold mapLookup mapSet
  have hk : ((k, v).1 == k') = false := by
    simp only [beq_eq_false_iff_ne, ne_eq]
    exact fun he => h he.symm
  rw [List.find?_cons, hk, find_key_filter_ne m k k' h]

theorem find_key_filter_self {α : Type} (m : SMap α) (k : String) :
    (m.filter (fun p => !(p.1 == k))).find? (fun p => p.1 == k) = none := by
  induction m with
  | nil => rfl
  | cons p t ih =>
    rw [List.filter_cons]
    by_cases hp : p.1 = k
    · have h1 : (!(p.1 == k)) = false := by simp [hp]
      rw [h1]
      simp only [Bool.false_eq_true, if_false]
      exact ih
    · have h1 : (!(p.1 == k)) = true := by simp [hp]
      have h2 : (p.1 == k) = false := by simp [hp]
      rw [h1, if_pos rfl, List.find?_cons, h2]
      exact ih

theorem mapLookup_mapDelete_self {α : Type} (m : SMap α) (k : String) :
    mapLookup (mapDelete m k) k = none := by
  unfold mapLookup mapDelete
  rw [find_key_filter_self m k]
  rfl

theorem mapLookup_mapDelete_ne {α : Type} (m : SMap α) (k k' : String)
    (h : k' ≠ k) : mapLookup (mapDelete m k) k' = mapLookup m k' := by
  unfold mapLookup mapDelete
  rw [find_key_filter_ne m k k' h]

/-! ### C6 — unknown device -/

/-- C6: for a device id absent from the durable store, `setDeviceStatus`
fails with the `Device with ID … not found` error and the whole state —
registry, heartbeat timers, persistence log and bus — is returned
unchanged. -/
theorem setStatus_unknownDevice_fails_state_unchanged (db : SMap Device)
    (st : RegistryState) (deviceId : String) (status : DeviceConnectionStatus)
    (protocol : DeviceProtocol) (ci : Option PartialConnectionInfo) (now : Nat)
    (sid : String) (h : mapLookup db deviceId = none) :
    setDeviceStatus db st deviceId status protocol ci now sid
      = (Except.error ("Device with ID " ++ deviceId ++ " not found"), st) := by
  simp [setDeviceStatus, h]

/-- Witness for C6 at a concrete unknown device id. -/
theorem setStatus_unknownDevice_witness :
    setDeviceStatus [] st0 "ghost" .ONLINE .MQTT none 7 "s"
      = (Except.error ("Device with ID " ++ "ghost" ++ " not found"), st0) :=
  setStatus_unknownDevice_fails_state_unchanged [] st0 "ghost" .ONLINE .MQTT
    none 7 "s" rfl

/-! ### C8 — sweeper events -/

theorem cleanupOne_events (now : Nat) (s : RegistryState) (d : String) :
    (cleanupOne now s d).events = s.events := by
  unfold cleanupOne
  cases mapLookup s.connections d <;> rfl

theorem foldl_cleanupOne_events (now : Nat) (l : List String) :
    ∀ s : RegistryState, (l.foldl (cleanupOne now) s).events = s.events := by
  induction l with
  | nil => intro s; rfl
  | cons d t ih =>
    intro s
    rw [List.foldl_cons, ih (cleanupOne now s d), cleanupOne_events]

/-- C8 (amended): a Heartbeat Monitor transition is literally a
`setDeviceStatus` call, so it publishes exactly the bus events an
equivalent live signal would; but the Stale-Connection Sweeper publishes
no Status Change Bus events at all — its forced OFFLINE transition is
recorded only in the persistence log, and records are evicted without
`status_change` or `device_offline` being emitted. -/
theorem sweeper_publishes_no_events :
    (∀ (st : RegistryState) (now : Nat),
      (cleanupInactiveConnections st now).events = st.events) ∧
    (∀ (db : SMap Device) (st : RegistryState) (d : String) (now : Nat)
        (sid : String) (c : DeviceConnectionInfo),
      mapLookup st.connections d = some c →
      now - c.lastActivityAt > INACTIVE_THRESHOLD →
      heartbeatTick db st d now sid
        = (setDeviceStatus db st d DeviceConnectionStatus.INACTIVE c.protocol
            (some { lastActivityAt := some c.lastActivityAt,
                    metadata := some (objMerge (c.metadata.getD [])
                      [("inactiveReason", "Heartbeat timeout")]) })
            now sid).2) := by
  constructor
  · intro st now
    unfold cleanupInactiveConnections
    exact foldl_cleanupOne_events now _ st
  · intro db st d now sid c hc hthr
    unfold heartbeatTick
    rw [hc]
    simp only [hthr, if_pos]

/-- Witness for C8 (amended): the sweeper leaves a concrete event list
unchanged, and a concrete heartbeat firing equals its `setDeviceStatus`
call. -/
theorem sweeper_publishes_no_events_witness :
    (cleanupInactiveConnections c9st 5).events = c9st.events ∧
    heartbeatTick dbT c9st "d" 300001 "hb"
      = (setDeviceStatus dbT c9st "d" DeviceConnectionStatus.INACTIVE c1on.protocol
          (some { lastActivityAt := some c1on.lastActivityAt,
                  metadata := some (objMerge (c1on.metadata.getD [])
                    [("inactiveReason", "Heartbeat timeout")]) })
          300001 "hb").2 :=
  ⟨sweeper_publishes_no_events.1 c9st 5,
   sweeper_publishes_no_events.2 dbT c9st "d" 300001 "hb" c1on (by decide)
     (by decide)⟩

/-- Counterexample for C8 as stated: the sweeper evicts a stale INACTIVE
record and logs its forced OFFLINE transition, yet the event list is
unchanged and contains no `device_offline` event for it. -/
theorem sweeper_eviction_without_events_counterexample :
    mapLookup c8stF.connections "d" = none ∧
    c8stF.events = c8stE.events ∧
    offlineEventCount c8stF.events = 0 ∧
    c8stF.logs.countP (fun e => e.status == DeviceConnectionStatus.OFFLINE) = 1 := by
  decide

/-! ### C2 — system-wide delivery of HIGH/CRITICAL messages -/

theorem device_room_ne_notifications (s : String) :
    ("device:" ++ s) ≠ "notifications" := by
  intro h
  have h2 := congrArg String.data h
  rw [String.data_append] at h2
  have h3 := congrArg List.head? h2
  simp at h3

theorem organization_room_ne_notifications (s : String) :
    ("organization:" ++ s) ≠ "notifications" := by
  intro h
  have h2 := congrArg String.data h
  rw [String.data_append] at h2
  have h3 := congrArg List.head? h2
  simp at h3

theorem systemWideDeliveries_append (a b : List NotifyEffect) :
    systemWideDeliveries (a ++ b)
      = systemWideDeliveries a + systemWideDeliveries b := by
  unfold systemWideDeliveries
  exact List.countP_append _ a b

theorem systemWideDeliveries_wsNotification (message : NotificationMessage) :
    systemWideDeliveries (sendWebSocketNotification message)
      = if message.priority = NotificationPriority.HIGH
           ∨ message.priority = NotificationPriority.CRITICAL then 1 else 0 := by
  unfold sendWebSocketNotification
  rw [systemWideDeliveries_append, systemWideDeliveries_append]
  have hdev : systemWideDeliveries
      (match message.deviceId with
       | some d => [NotifyEffect.wsRoom ("device:" ++ d) message]
       | none => []) = 0 := by
    cases message.deviceId with
    | none => rfl
    | some d =>
      have := device_room_ne_notifications d
      simp [systemWideDeliveries, this]
  have horg : systemWideDeliveries
      (match message.organizationId with
       | some o => [NotifyEffect.wsRoom ("organization:" ++ o) message]
       | none => []) = 0 := by
    cases message.organizationId with
    | none => rfl
    | some o =>
      have := organization_room_ne_notifications o
      simp [systemWideDeliveries, this]
  rw [hdev, horg]
  by_cases hp : message.priority = NotificationPriority.HIGH
    ∨ message.priority = NotificationPriority.CRITICAL
  · simp [hp, systemWideDeliveries]
  · simp [hp, systemWideDeliveries]

theorem systemWideDeliveries_dispatchChannel (message : NotificationMessage)
    (ch : NotificationChannel) :
    systemWideDeliveries (dispatchChannel message ch)
      = if (message.priority = NotificationPriority.HIGH
             ∨ message.priority = NotificationPriority.CRITICAL)
           ∧ ch = NotificationChannel.WEBSOCKET then 1 else 0 := by
  cases ch with
  | WEBSOCKET =>
    rw [show dispatchChannel message .WEBSOCKET
          = sendWebSocketNotification message from rfl,
        systemWideDeliveries_wsNotification]
    by_cases hp : message.priority = NotificationPriority.HIGH
      ∨ message.priority = NotificationPriority.CRITICAL
    · simp [hp]
    · simp [hp]
  | EMAIL => simp [dispatchChannel, systemWideDeliveries]
  | SMS => simp [dispatchChannel, systemWideDeliveries]
  | PUSH => simp [dispatchChannel, systemWideDeliveries]
  | WEBHOOK => simp [dispatchChannel, systemWideDeliveries]

/-- C2 (amended): a HIGH/CRITICAL message reaches the system-wide
`notifications` room exactly once per WEBSOCKET entry in the dispatched
channel list — and therefore not at all when the applicable config omits
the WEBSOCKET channel; LOW/MEDIUM messages never reach it. -/
theorem systemWide_delivery_requires_websocket_channel
    (message : NotificationMessage) (channels : List NotificationChannel) :
    systemWideDeliveries (sendNotification message channels)
      = if message.priority = NotificationPriority.HIGH
           ∨ message.priority = NotificationPriority.CRITICAL
        then channels.count NotificationChannel.WEBSOCKET else 0 := by
  unfold sendNotification
  rw [systemWideDeliveries_append]
  have hsent : systemWideDeliveries [NotifyEffect.sentEvent message] = 0 := rfl
  rw [hsent, Nat.add_zero]
  induction channels with
  | nil => by_cases hp : message.priority = NotificationPriority.HIGH
             ∨ message.priority = NotificationPriority.CRITICAL <;>
           simp [hp, systemWideDeliveries]
  | cons ch t ih =>
    rw [List.flatMap_cons, systemWideDeliveries_append, ih,
        systemWideDeliveries_dispatchChannel]
    by_cases hp : message.priority = NotificationPriority.HIGH
      ∨ message.priority = NotificationPriority.CRITICAL
    · by_cases hc : ch = NotificationChannel.WEBSOCKET
      · simp [hp, hc, List.count_cons, Nat.add_comm]
      · simp [hp, hc, List.count_cons]
    · simp [hp]

/-- Counterexample for C2 as stated: a HIGH-priority message dispatched
with a channel list omitting WEBSOCKET produces zero deliveries to the
system-wide `notifications` room. -/
theorem highPriority_not_systemWide_counterexample :
    c2msgH.priority = NotificationPriority.HIGH ∧
    systemWideDeliveries (sendNotification c2msgH [NotificationChannel.EMAIL]) = 0 := by
  decide

/-! ### `setDeviceStatus` structure lemmas -/

theorem applyPartial_none (base : DeviceConnectionInfo) :
    applyPartial base none = base := rfl

theorem applyPartial_status (base : DeviceConnectionInfo)
    (ci : Option PartialConnectionInfo) :
    (applyPartial base ci).status = base.status := by
  cases ci <;> rfl

theorem setDeviceStatus_found (db : SMap Device) (st : RegistryState)
    (deviceId : String) (status : DeviceConnectionStatus)
    (protocol : DeviceProtocol) (ci : Option PartialConnectionInfo) (now : Nat)
    (sid : String) (device : Device) (hdb : mapLookup db deviceId = some device) :
    setDeviceStatus db st deviceId status protocol ci now sid
      = (Except.ok (buildConnectionData device (mapLookup st.connections deviceId)
            deviceId status protocol ci now sid),
         { connections := mapSet st.connections deviceId
             (buildConnectionData device (mapLookup st.connections deviceId)
               deviceId status protocol ci now sid)
           heartbeats := setHeartbeats st.heartbeats deviceId status
           logs := st.logs ++ [mkLogEntry deviceId status protocol
             (buildConnectionData device (mapLookup st.connections deviceId)
               deviceId status protocol ci now sid)]
           events := st.events ++ emitStatusChange deviceId
             (buildConnectionData device (mapLookup st.connections deviceId)
               deviceId status protocol ci now sid)
             (mapLookup st.connections deviceId) }) := by
  simp [setDeviceStatus, hdb]

theorem buildConnectionData_status (device : Device)
    (ex : Option DeviceConnectionInfo) (deviceId : String)
    (status : DeviceConnectionStatus) (protocol : DeviceProtocol)
    (ci : Option PartialConnectionInfo) (now : Nat) (sid : String) :
    (buildConnectionData device ex deviceId status protocol ci now sid).status
      = status := by
  unfold buildConnectionData
  cases status <;> cases ex <;> cases ci <;>
    simp [applyPartial] <;> split <;> simp [applyPartial]

/-! ### C3 — publish iff status differs -/

/-- C3: a `setDeviceStatus` call publishes on the Status Change Bus iff the
new status differs from the prior record's status (or no prior record
exists); when it publishes, the published events are the general
`status_change` event, the matching status-specific event and the room
broadcast; a no-op call publishes nothing. -/
theorem setStatus_publishes_iff_status_differs (db : SMap Device)
    (st : RegistryState) (deviceId : String) (status : DeviceConnectionStatus)
    (protocol : DeviceProtocol) (ci : Option PartialConnectionInfo) (now : Nat)
    (sid : String) (c : DeviceConnectionInfo) (st' : RegistryState)
    (h : setDeviceStatus db st deviceId status protocol ci now sid
           = (Except.ok c, st')) :
    (st'.events = st.events
       ↔ ∃ o, mapLookup st.connections deviceId = some o ∧ o.status = status) ∧
    ((∀ o, mapLookup st.connections deviceId = some o → o.status ≠ status) →
       st'.events = st.events
         ++ [BusEvent.status_change deviceId c (mapLookup st.connections deviceId),
             specificEvent deviceId c,
             BusEvent.ws_room_status ("device:" ++ deviceId) deviceId c.status]) := by
  cases hdb : mapLookup db deviceId with
  | none => simp [setDeviceStatus, hdb] at h
  | some device =>
    rw [setDeviceStatus_found db st deviceId status protocol ci now sid device hdb] at h
    injection h with h1 h2
    injection h1 with hc
    have hev : st'.events = st.events ++ emitStatusChange deviceId c
        (mapLookup st.connections deviceId) := by
      rw [← h2, hc]
    have hcs : c.status = status := by
      rw [← hc]; exact buildConnectionData_status _ _ _ _ _ _ _ _
    cases hex : mapLookup st.connections deviceId with
    | none =>
      constructor
      · rw [hev, hex]
        simp [emitStatusChange, emitStatusChangeEvents]
      · intro _
        rw [hev, hex]
        simp [emitStatusChange, emitStatusChangeEvents]
    | some o =>
      by_cases ho : o.status = status
      · constructor
        · rw [hev, hex]
          simp [emitStatusChange, ho, hcs]
        · intro hno
          exact absurd ho (hno o rfl)
      · constructor
        · rw [hev, hex]
          simp [emitStatusChange, emitStatusChangeEvents, ho, hcs]
        · intro _
          rw [hev, hex]
          simp [emitStatusChange, emitStatusChangeEvents, ho, hcs]

/-- Witness for C3 at a concrete first-time ONLINE signal. -/
theorem setStatus_publishes_witness :
    (c3st.events = st0.events
       ↔ ∃ o, mapLookup st0.connections "d" = some o
           ∧ o.status = DeviceConnectionStatus.ONLINE) ∧
    ((∀ o, mapLookup st0.connections "d" = some o
        → o.status ≠ DeviceConnectionStatus.ONLINE) →
       c3st.events = st0.events
         ++ [BusEvent.status_change "d" c3c (mapLookup st0.connections "d"),
             specificEvent "d" c3c,
             BusEvent.ws_room_status ("device:" ++ "d") "d" c3c.status]) :=
  setStatus_publishes_iff_status_differs dbT st0 "d"
    DeviceConnectionStatus.ONLINE DeviceProtocol.MQTT none 5 "s" c3c c3st rfl

/-! ### C4 — `setDeviceStatus` does not merge the prior record -/

theorem buildConnectionData_none_resets (device : Device)
    (ex : Option DeviceConnectionInfo) (deviceId : String)
    (status : DeviceConnectionStatus) (protocol : DeviceProtocol) (now : Nat)
    (sid : String) :
    (buildConnectionData device ex deviceId status protocol none now sid).address = none ∧
    (buildConnectionData device ex deviceId status protocol none now sid).port = none ∧
    (buildConnectionData device ex deviceId status protocol none now sid).clientId = none ∧
    (buildConnectionData device ex deviceId status protocol none now sid).metadata = none := by
  unfold buildConnectionData
  cases status <;> cases ex <;> simp [applyPartial] <;> split <;> simp

theorem buildConnectionData_online_stay (device : Device)
    (ec : DeviceConnectionInfo) (deviceId : String) (protocol : DeviceProtocol)
    (ci : Option PartialConnectionInfo) (now : Nat) (sid : String)
    (h : ec.status = DeviceConnectionStatus.ONLINE) :
    (buildConnectionData device (some ec) deviceId DeviceConnectionStatus.ONLINE
        protocol ci now sid).connectedAt = ec.connectedAt ∧
    (buildConnectionData device (some ec) deviceId DeviceConnectionStatus.ONLINE
        protocol ci now sid).sessionId = ec.sessionId := by
  unfold buildConnectionData
  simp [h]

/-- C4 (amended): `setDeviceStatus` does not merge into the existing
record — with no partial record supplied, the resulting record's
`address`, `port`, `clientId` and `metadata` are reset to absent whatever
the prior record held; of the prior record only `connectedAt` and
`sessionId` are carried over, and only when the device stays ONLINE. -/
theorem setStatus_rebuilds_record_from_signal (db : SMap Device)
    (st : RegistryState) (deviceId : String) (status : DeviceConnectionStatus)
    (protocol : DeviceProtocol) (now : Nat) (sid : String)
    (c : DeviceConnectionInfo) (st' : RegistryState) (o : DeviceConnectionInfo)
    (ho : mapLookup st.connections deviceId = some o)
    (h : setDeviceStatus db st deviceId status protocol none now sid
           = (Except.ok c, st')) :
    c.address = none ∧ c.port = none ∧ c.clientId = none ∧ c.metadata = none ∧
    (status = DeviceConnectionStatus.ONLINE →
     o.status = DeviceConnectionStatus.ONLINE →
       c.connectedAt = o.connectedAt ∧ c.sessionId = o.sessionId) := by
  cases hdb : mapLookup db deviceId with
  | none => simp [setDeviceStatus, hdb] at h
  | some device =>
    rw [setDeviceStatus_found db st deviceId status protocol none now sid device hdb] at h
    injection h with h1 h2
    injection h1 with hc
    rw [ho] at hc
    obtain ⟨ha, hp, hcl, hm⟩ :=
      buildConnectionData_none_resets device (some o) deviceId status protocol now sid
    rw [hc] at ha hp hcl hm
    refine ⟨ha, hp, hcl, hm, ?_⟩
    intro hs hos
    subst hs
    obtain ⟨hca, hsi⟩ :=
      buildConnectionData_online_stay device o deviceId protocol none now sid hos
    rw [hc] at hca hsi
    exact ⟨hca, hsi⟩

/-- Witness for C4 (amended) at a concrete repeated-ONLINE call. -/
theorem setStatus_rebuilds_record_witness :
    c4c2.address = none ∧ c4c2.port = none ∧ c4c2.clientId = none ∧
    c4c2.metadata = none ∧
    (DeviceConnectionStatus.ONLINE = DeviceConnectionStatus.ONLINE →
     c4prior.status = DeviceConnectionStatus.ONLINE →
       c4c2.connectedAt = c4prior.connectedAt ∧
       c4c2.sessionId = c4prior.sessionId) :=
  setStatus_rebuilds_record_from_signal dbT c4st1 "d"
    DeviceConnectionStatus.ONLINE DeviceProtocol.TCP 1 "s2" c4c2 c4st2 c4prior
    rfl rfl

/-- Counterexample for C4 as stated: the prior record holds an address,
port, client id and metadata, the second signal supplies none of them, yet
the resulting record has them reset to absent rather than preserved. -/
theorem setStatus_merge_counterexample :
    mapLookup c4st1.connections "d" = some c4prior ∧
    c4prior.address = some "1.2.3.4" ∧ c4prior.port = some 5 ∧
    c4prior.clientId = some "c1" ∧ c4prior.metadata = some [("k", "v")] ∧
    c4res2.1.toOption.map (fun x => x.address) = some none ∧
    c4res2.1.toOption.map (fun x => x.port) = some none ∧
    c4res2.1.toOption.map (fun x => x.clientId) = some none ∧
    c4res2.1.toOption.map (fun x => x.metadata) = some none := by
  decide

/-! ### C5 — repeated ONLINE idempotence -/

theorem buildConnectionData_online_none_fields (device : Device)
    (ex : Option DeviceConnectionInfo) (d : String) (p : DeviceProtocol)
    (now : Nat) (sid : String) :
    (buildConnectionData device ex d DeviceConnectionStatus.ONLINE p none now sid).deviceId = d ∧
    (buildConnectionData device ex d DeviceConnectionStatus.ONLINE p none now sid).deviceIdentifier = device.identifier ∧
    (buildConnectionData device ex d DeviceConnectionStatus.ONLINE p none now sid).protocol = p ∧
    (buildConnectionData device ex d DeviceConnectionStatus.ONLINE p none now sid).address = none ∧
    (buildConnectionData device ex d DeviceConnectionStatus.ONLINE p none now sid).port = none ∧
    (buildConnectionData device ex d DeviceConnectionStatus.ONLINE p none now sid).clientId = none ∧
    (buildConnectionData device ex d DeviceConnectionStatus.ONLINE p none now sid).lastActivityAt = now ∧
    (buildConnectionData device ex d DeviceConnectionStatus.ONLINE p none now sid).disconnectedAt = none ∧
    (buildConnectionData device ex d DeviceConnectionStatus.ONLINE p none now sid).connectionDuration = none ∧
    (buildConnectionData device ex d DeviceConnectionStatus.ONLINE p none now sid).metadata = none := by
  unfold buildConnectionData
  cases ex <;> simp [applyPartial] <;> split <;> simp [applyPartial]

/-- C5: two consecutive ONLINE signals for the same device and protocol
with no partial record produce a second record identical to the first
except for `lastActivityAt`; in particular `sessionId` and `connectedAt`
are unchanged. -/
theorem repeated_online_idempotent (db : SMap Device) (st : RegistryState)
    (d : String) (p : DeviceProtocol) (t1 : Nat) (s1 : String) (t2 : Nat)
    (s2 : String) (c1 : DeviceConnectionInfo) (st1 : RegistryState)
    (c2 : DeviceConnectionInfo) (st2 : RegistryState)
    (h1 : setDeviceStatus db st d DeviceConnectionStatus.ONLINE p none t1 s1
            = (Except.ok c1, st1))
    (h2 : setDeviceStatus db st1 d DeviceConnectionStatus.ONLINE p none t2 s2
            = (Except.ok c2, st2)) :
    c2 = { c1 with lastActivityAt := t2 } ∧
    c2.sessionId = c1.sessionId ∧ c2.connectedAt = c1.connectedAt := by
  cases hdb : mapLookup db d with
  | none => simp [setDeviceStatus, hdb] at h1
  | some device =>
    rw [setDeviceStatus_found db st d DeviceConnectionStatus.ONLINE p none t1 s1
      device hdb] at h1
    injection h1 with h1a h1b
    injection h1a with hc1
    rw [setDeviceStatus_found db st1 d DeviceConnectionStatus.ONLINE p none t2 s2
      device hdb] at h2
    injection h2 with h2a h2b
    injection h2a with hc2
    have hlk : mapLookup st1.connections d = some c1 := by
      rw [← h1b, ← hc1]
      exact mapLookup_mapSet_self _ _ _
    rw [hlk] at hc2
    have hc1on : c1.status = DeviceConnectionStatus.ONLINE := by
      rw [← hc1]; exact buildConnectionData_status _ _ _ _ _ _ _ _
    have hc2on : c2.status = DeviceConnectionStatus.ONLINE := by
      rw [← hc2]; exact buildConnectionData_status _ _ _ _ _ _ _ _
    have f1 := buildConnectionData_online_none_fields device
      (mapLookup st.connections d) d p t1 s1
    rw [hc1] at f1
    have f2 := buildConnectionData_online_none_fields device (some c1) d p t2 s2
    rw [hc2] at f2
    have fstay := buildConnectionData_online_stay device c1 d p none t2 s2 hc1on
    rw [hc2] at fstay
    obtain ⟨g1, g2, g3, g4, g5, g6, g7, g8, g9, g10⟩ := f1
    obtain ⟨k1, k2, k3, k4, k5, k6, k7, k8, k9, k10⟩ := f2
    obtain ⟨m1, m2⟩ := fstay
    have hmain : c2 = { c1 with lastActivityAt := t2 } := by
      cases c1 with
      | mk a1 a2 a3 a4 a5 a6 a7 a8 a9 a10 a11 a12 a13 =>
        cases c2 with
        | mk b1 b2 b3 b4 b5 b6 b7 b8 b9 b10 b11 b12 b13 =>
          simp_all
    exact ⟨hmain, by rw [hmain], by rw [hmain]⟩

/-- Witness for C5 at a concrete pair of ONLINE signals. -/
theorem repeated_online_idempotent_witness :
    c5c2 = { c5c1 with lastActivityAt := 9 } ∧
    c5c2.sessionId = c5c1.sessionId ∧ c5c2.connectedAt = c5c1.connectedAt :=
  repeated_online_idempotent dbT st0 "d" DeviceProtocol.MQTT 5 "s" 9 "z"
    c5c1 c5st1 c5c2 c5st2 rfl rfl

/-! ### Object-merge semantics -/

theorem find?_filter_subsume {α : Type} (f g : α → Bool) (l : List α)
    (h : ∀ a, g a = true → f a = true) :
    (l.filter f).find? g = l.find? g := by
  induction l with
  | nil => rfl
  | cons a t ih =>
    rw [List.filter_cons]
    by_cases hf : f a = true
    · rw [hf, if_pos rfl, List.find?_cons, List.find?_cons]
      cases hg : g a with
      | true => rfl
      | false => exact ih
    · have hfa : f a = false := by
        cases hfa : f a with
        | true => exact absurd hfa hf
        | false => rfl
      have hg : g a = false := by
        cases hg2 : g a with
        | true => exact absurd (h a hg2) hf
        | false => rfl
      rw [hfa]
      simp only [Bool.false_eq_true, if_false]
      rw [ih, List.find?_cons, hg]

theorem objGet_objMerge (old new : Obj) (k : String) :
    objGet (objMerge old new) k = (objGet new k).or (objGet old k) := by
  unfold objGet objMerge
  rw [List.find?_append]
  by_cases hk : (new.map (·.1)).contains k = true
  · have hnone : (old.filter (fun p => !((new.map (·.1)).contains p.1))).find?
        (fun p => p.1 == k) = none := by
      apply List.find?_eq_none.mpr
      intro p hp hbeq
      have hpf := (List.mem_filter.mp hp).2
      have hpk : p.1 = k := by simpa using hbeq
      rw [hpk] at hpf
      rw [hk] at hpf
      simp at hpf
    rw [hnone]
    cases hfind : new.find? (fun p => p.1 == k) with
    | some p => simp
    | none =>
      obtain ⟨k', hk'mem, hbeq⟩ := List.contains_iff_exists_mem_beq.mp hk
      obtain ⟨q, hqmem, hqk⟩ := List.mem_map.mp hk'mem
      have : (fun p => p.1 == k) q = true := by
        have : k = q.1 := by
          have := beq_iff_eq.mp hbeq
          rw [this, ← hqk]
        simp [this]
      have := List.find?_eq_none.mp hfind q hqmem
      simp_all
  · have hknew : new.find? (fun p => p.1 == k) = none := by
      apply List.find?_eq_none.mpr
      intro p hp hbeq
      have hpk : p.1 = k := by simpa using hbeq
      apply hk
      apply List.contains_iff_exists_mem_beq.mpr
      exact ⟨p.1, List.mem_map.mpr ⟨p, hp, rfl⟩, by simp [hpk]⟩
    have hfil : (old.filter (fun p => !((new.map (·.1)).contains p.1))).find?
        (fun p => p.1 == k) = old.find? (fun p => p.1 == k) := by
      apply find?_filter_subsume
      intro p hp
      have hpk : p.1 = k := by simpa using hp
      rw [hpk]
      simp only [Bool.not_eq_true'] at hk ⊢
      cases hc : (new.map (·.1)).contains k with
      | true => exact absurd hc hk
      | false => simp
    rw [hknew, hfil]
    simp

/-! ### C9 — `updateDeviceActivity` -/

/-- C9: `updateDeviceActivity` advances `lastActivityAt` and merges the
metadata patch (patch keys win, other keys are preserved) while leaving
`status`, `protocol`, `sessionId`, `connectedAt` and `disconnectedAt`
unchanged, and touches neither the log, the events, nor the heartbeats;
on a device with no current record it is a no-op that creates no record
and raises no error. -/
theorem updateActivity_frame (st : RegistryState) (deviceId : String)
    (metadata : Option Obj) (now : Nat) :
    (mapLookup st.connections deviceId = none →
       updateDeviceActivity st deviceId metadata now = st) ∧
    (∀ c, mapLookup st.connections deviceId = some c →
       ∃ c', mapLookup (updateDeviceActivity st deviceId metadata now).connections
               deviceId = some c' ∧
         c'.lastActivityAt = now ∧
         c'.status = c.status ∧ c'.protocol = c.protocol ∧
         c'.sessionId = c.sessionId ∧ c'.connectedAt = c.connectedAt ∧
         c'.disconnectedAt = c.disconnectedAt ∧
         (metadata = none → c'.metadata = c.metadata) ∧
         (∀ m, metadata = some m → ∀ k,
            objGet (c'.metadata.getD []) k
              = (objGet m k).or (objGet (c.metadata.getD []) k)) ∧
         (updateDeviceActivity st deviceId metadata now).logs = st.logs ∧
         (updateDeviceActivity st deviceId metadata now).events = st.events ∧
         (updateDeviceActivity st deviceId metadata now).heartbeats
           = st.heartbeats) := by
  constructor
  · intro h
    unfold updateDeviceActivity
    rw [h]
  · intro c hc
    unfold updateDeviceActivity
    rw [hc]
    cases metadata with
    | none =>
      refine ⟨{ c with lastActivityAt := now }, ?_, ?_⟩
      · exact mapLookup_mapSet_self _ _ _
      · simp
    | some m =>
      refine ⟨{ c with lastActivityAt := now, metadata := some (objMerge (c.metadata.getD []) m) }, ?_, ?_⟩
      · exact mapLookup_mapSet_self _ _ _
      · refine ⟨rfl, rfl, rfl, rfl, rfl, rfl, ?_, ?_, rfl, rfl, rfl⟩
        · intro h
          cases h
        · intro m' hm' k
          injection hm' with hmm
          subst hmm
          simpa using objGet_objMerge (c.metadata.getD []) m k

/-- Witness for C9: the no-record no-op, and a concrete activity update
with a metadata patch. -/
theorem updateActivity_frame_witness :
    updateDeviceActivity st0 "x" none 3 = st0 ∧
    (∃ c', mapLookup (updateDeviceActivity c9st "d" (some [("a", "1")]) 7).connections
             "d" = some c' ∧
       c'.lastActivityAt = 7 ∧
       c'.status = c1on.status ∧ c'.protocol = c1on.protocol ∧
       c'.sessionId = c1on.sessionId ∧ c'.connectedAt = c1on.connectedAt ∧
       c'.disconnectedAt = c1on.disconnectedAt ∧
       (some [("a", "1")] = none → c'.metadata = c1on.metadata) ∧
       (∀ m, some [("a", "1")] = some m → ∀ k,
          objGet (c'.metadata.getD []) k
            = (objGet m k).or (objGet (c1on.metadata.getD []) k)) ∧
       (updateDeviceActivity c9st "d" (some [("a", "1")]) 7).logs = c9st.logs ∧
       (updateDeviceActivity c9st "d" (some [("a", "1")]) 7).events = c9st.events ∧
       (updateDeviceActivity c9st "d" (some [("a", "1")]) 7).heartbeats
         = c9st.heartbeats) :=
  ⟨(updateActivity_frame st0 "x" none 3).1 rfl,
   (updateActivity_frame c9st "d" (some [("a", "1")]) 7).2 c1on rfl⟩

/-! ### C10 — per-protocol statistics -/

theorem ProtocolStats.get_bump (s : ProtocolStats) (q p : DeviceProtocol) :
    (s.bump q).get p = s.get p + (if q = p then 1 else 0) := by
  cases q <;> cases p <;>
    simp [ProtocolStats.bump, ProtocolStats.get]

theorem ProtocolStats.total_bump (s : ProtocolStats) (q : DeviceProtocol) :
    (s.bump q).total = s.total + 1 := by
  cases q <;> simp [ProtocolStats.bump, ProtocolStats.total] <;> omega

theorem stats_foldl_get (p : DeviceProtocol)
    (l : List (String × DeviceConnectionInfo)) :
    ∀ acc : ProtocolStats,
      (l.foldl (fun stats q =>
          if q.2.status = DeviceConnectionStatus.ONLINE then stats.bump q.2.protocol
          else stats) acc).get p
        = acc.get p + l.countP (fun q =>
            q.2.status == DeviceConnectionStatus.ONLINE && q.2.protocol == p) := by
  induction l with
  | nil => intro acc; simp
  | cons q t ih =>
    intro acc
    rw [List.foldl_cons, List.countP_cons]
    by_cases hs : q.2.status = DeviceConnectionStatus.ONLINE
    · rw [if_pos hs, ih, ProtocolStats.get_bump]
      by_cases hp : q.2.protocol = p
      · simp [hs, hp]
        omega
      · simp [hs, hp]
    · rw [if_neg hs, ih]
      simp [hs]

theorem stats_foldl_total (l : List (String × DeviceConnectionInfo)) :
    ∀ acc : ProtocolStats,
      (l.foldl (fun stats q =>
          if q.2.status = DeviceConnectionStatus.ONLINE then stats.bump q.2.protocol
          else stats) acc).total
        = acc.total + l.countP (fun q =>
            q.2.status == DeviceConnectionStatus.ONLINE) := by
  induction l with
  | nil => intro acc; simp
  | cons q t ih =>
    intro acc
    rw [List.foldl_cons, List.countP_cons]
    by_cases hs : q.2.status = DeviceConnectionStatus.ONLINE
    · rw [if_pos hs, ih, ProtocolStats.total_bump]
      simp [hs]
      omega
    · rw [if_neg hs, ih]
      simp [hs]

theorem onlineCount_foldl (l : List (String × DeviceConnectionInfo)) :
    ∀ n : Nat,
      l.foldl (fun count q =>
          if q.2.status = DeviceConnectionStatus.ONLINE then count + 1 else count) n
        = n + l.countP (fun q => q.2.status == DeviceConnectionStatus.ONLINE) := by
  induction l with
  | nil => intro n; simp
  | cons q t ih =>
    intro n
    rw [List.foldl_cons, List.countP_cons]
    by_cases hs : q.2.status = DeviceConnectionStatus.ONLINE
    · rw [if_pos hs, ih]
      simp [hs]
      omega
    · rw [if_neg hs, ih]
      simp [hs]

/-- C10: the per-protocol statistics count exactly the ONLINE records of
each protocol, their total equals `getOnlineDeviceCount`, and a record
whose status is not ONLINE contributes to no protocol's counter. -/
theorem protocol_stats_online_only (st : RegistryState) :
    (∀ p, (getDeviceConnectionStatsByProtocol st).get p
        = st.connections.countP (fun q =>
            q.2.status == DeviceConnectionStatus.ONLINE && q.2.protocol == p)) ∧
    (getDeviceConnectionStatsByProtocol st).total = getOnlineDeviceCount st ∧
    (∀ d c, c.status ≠ DeviceConnectionStatus.ONLINE →
       getDeviceConnectionStatsByProtocol
           { st with connections := (d, c) :: st.connections }
         = getDeviceConnectionStatsByProtocol st) := by
  refine ⟨?_, ?_, ?_⟩
  · intro p
    unfold getDeviceConnectionStatsByProtocol
    rw [stats_foldl_get]
    have h0 : ({} : ProtocolStats).get p = 0 := by cases p <;> rfl
    rw [h0, Nat.zero_add]
  · unfold getDeviceConnectionStatsByProtocol getOnlineDeviceCount
    rw [stats_foldl_total, onlineCount_foldl]
    rfl
  · intro d c hc
    unfold getDeviceConnectionStatsByProtocol
    rw [List.foldl_cons]
    simp [hc]

/-- Witness for C10: a non-ONLINE record added to a registry leaves the
statistics unchanged. -/
theorem protocol_stats_online_only_witness :
    getDeviceConnectionStatsByProtocol
        { st0 with connections := ("x", c7werr) :: st0.connections }
      = getDeviceConnectionStatsByProtocol st0 :=
  (protocol_stats_online_only st0).2.2 "x" c7werr (by decide)

/-! ### C1 — dispatch on an OFFLINE transition -/

/-- C1 (amended): a single transition to OFFLINE triggers the dispatcher
twice — once from the general `status_change` listener and once from the
`device_offline` listener — so with an enabled DEVICE_OFFLINE config it
performs exactly two delivery attempts per occurrence of a channel in the
config's channel list (hence zero on unconfigured channels), and zero
attempts on every channel when no enabled DEVICE_OFFLINE config exists. -/
theorem offline_transition_double_dispatch (env : NotifyEnv) (d : String)
    (newC : DeviceConnectionInfo) (oldC : Option DeviceConnectionInfo)
    (device : Device) (cfg : NotificationConfig)
    (hdev : mapLookup env.devices d = some device)
    (hst : newC.status = DeviceConnectionStatus.OFFLINE)
    (hch : ∀ o, oldC = some o → o.status ≠ newC.status) :
    ((getNotificationConfigs env (device.organizationId.getD "default")).find?
        (fun config => config.type == NotificationType.DEVICE_OFFLINE
          && config.enabled) = some cfg →
      ∀ ch, channelAttempts (notifyForEvents env (emitStatusChange d newC oldC)).1 ch
        = 2 * cfg.channels.count ch) ∧
    ((getNotificationConfigs env (device.organizationId.getD "default")).find?
        (fun config => config.type == NotificationType.DEVICE_OFFLINE
          && config.enabled) = none →
      (notifyForEvents env (emitStatusChange d newC oldC)).1 = []) := by
  have hevents : emitStatusChange d newC oldC
      = [BusEvent.status_change d newC oldC, specificEvent d newC,
         BusEvent.ws_room_status ("device:" ++ d) d newC.status] := by
    cases oldC with
    | none => rfl
    | some o =>
      have hne : o.status ≠ newC.status := hch o rfl
      simp only [emitStatusChange]
      rw [if_neg hne]
      rfl
  have hspec : specificEvent d newC = BusEvent.device_offline d newC := by
    unfold specificEvent
    rw [hst]
  constructor
  · intro hf ch
    rw [hevents, hspec]
    simp only [notifyForEvents, List.flatMap_cons, List.flatMap_nil,
      List.append_nil, handleBusEvent, hst]
    unfold sendDeviceStatusNotification
    rw [hdev]
    simp only [notificationTypeOf] at hf ⊢
    rw [hf]
    simp [channelAttempts]
    omega
  · intro hf
    rw [hevents, hspec]
    simp only [notifyForEvents, List.flatMap_cons, List.flatMap_nil,
      List.append_nil, handleBusEvent, hst]
    unfold sendDeviceStatusNotification
    rw [hdev]
    simp only [notificationTypeOf] at hf ⊢
    rw [hf]
    rfl

/-- Witness for C1 (amended): the enabled `{EMAIL, SMS}` config yields two
EMAIL attempts; the disabled config yields no dispatch at all. -/
theorem offline_transition_double_dispatch_witness :
    channelAttempts (notifyForEvents c1env
        (emitStatusChange "d" c1off (some c1on))).1 NotificationChannel.EMAIL
      = 2 * c1cfg.channels.count NotificationChannel.EMAIL ∧
    (notifyForEvents c1envDisabled
        (emitStatusChange "d" c1off (some c1on))).1 = [] :=
  ⟨(offline_transition_double_dispatch c1env "d" c1off (some c1on) devT c1cfg
      rfl rfl (by intro o h he; cases h; revert he; decide)).1 (by decide)
      NotificationChannel.EMAIL,
   (offline_transition_double_dispatch c1envDisabled "d" c1off (some c1on) devT
      c1cfg rfl rfl (by intro o h he; cases h; revert he; decide)).2 (by decide)⟩

/-- Counterexample for C1 as stated: with the enabled DEVICE_OFFLINE config
listing channels `{EMAIL, SMS}`, one live OFFLINE transition produces two
delivery attempts on EMAIL and two on SMS, not one; the unlisted WEBSOCKET
channel gets zero, and the disabled config gets zero. -/
theorem offline_single_attempt_counterexample :
    (mapLookup c1stOn.connections "d").map (fun x => x.status)
      = some DeviceConnectionStatus.ONLINE ∧
    c1cfg.enabled = true ∧
    c1cfg.channels = [NotificationChannel.EMAIL, NotificationChannel.SMS] ∧
    channelAttempts (notifyForEvents c1env c1resOff.2.events).1
      NotificationChannel.EMAIL = 2 ∧
    channelAttempts (notifyForEvents c1env c1resOff.2.events).1
      NotificationChannel.SMS = 2 ∧
    channelAttempts (notifyForEvents c1env c1resOff.2.events).1
      NotificationChannel.WEBSOCKET = 0 ∧
    channelAttempts (notifyForEvents c1envDisabled c1resOff.2.events).1
      NotificationChannel.EMAIL = 0 := by
  decide

/-! ### C7 — sweeper eviction -/

theorem cleanupOne_lookup_none (now : Nat) (s : RegistryState) (e d : String)
    (h : mapLookup s.connections d = none) :
    mapLookup (cleanupOne now s e).connections d = none := by
  unfold cleanupOne
  cases he : mapLookup s.connections e with
  | none => exact h
  | some c =>
    by_cases hd : d = e
    · subst hd
      exact mapLookup_mapDelete_self _ _
    · rw [show ({ s with
          logs := s.logs ++ [mkLogEntry e DeviceConnectionStatus.OFFLINE c.protocol
            (cleanupRecord c now)]
          connections := mapDelete s.connections e
          heartbeats := s.heartbeats.filter (fun x => !(x == e)) } :
            RegistryState).connections = mapDelete s.connections e from rfl,
        mapLookup_mapDelete_ne _ _ _ hd]
      exact h

theorem foldl_cleanupOne_lookup_none (now : Nat) (l : List String) :
    ∀ (s : RegistryState) (d : String), mapLookup s.connections d = none →
      mapLookup ((l.foldl (cleanupOne now) s)).connections d = none := by
  induction l with
  | nil => intro s d h; exact h
  | cons e t ih =>
    intro s d h
    rw [List.foldl_cons]
    exact ih _ d (cleanupOne_lookup_none now s e d h)

theorem cleanupOne_lookup_self_none (now : Nat) (s : RegistryState) (d : String) :
    mapLookup (cleanupOne now s d).connections d = none
      ∨ cleanupOne now s d = s ∧ mapLookup s.connections d = none := by
  unfold cleanupOne
  cases he : mapLookup s.connections d with
  | none => exact Or.inr ⟨rfl, rfl⟩
  | some c => exact Or.inl (mapLookup_mapDelete_self _ _)

theorem foldl_cleanupOne_mem_removed (now : Nat) (l : List String) :
    ∀ (s : RegistryState) (d : String), d ∈ l →
      mapLookup ((l.foldl (cleanupOne now) s)).connections d = none := by
  induction l with
  | nil => intro s d h; cases h
  | cons e t ih =>
    intro s d h
    rw [List.foldl_cons]
    by_cases hd : d = e
    · subst hd
      rcases cleanupOne_lookup_self_none now s d with h1 | ⟨h1, h2⟩
      · exact foldl_cleanupOne_lookup_none now t _ d h1
      · rw [h1]
        exact foldl_cleanupOne_lookup_none now t _ d h2
    · have : d ∈ t := by
        cases List.mem_cons.mp h with
        | inl hx => exact absurd hx hd
        | inr hx => exact hx
      exact ih _ d this

theorem cleanupOne_lookup_other (now : Nat) (s : RegistryState) (e d : String)
    (hd : d ≠ e) :
    mapLookup (cleanupOne now s e).connections d = mapLookup s.connections d := by
  unfold cleanupOne
  cases he : mapLookup s.connections e with
  | none => rfl
  | some c => exact mapLookup_mapDelete_ne _ _ _ hd

theorem foldl_cleanupOne_notmem (now : Nat) (l : List String) :
    ∀ (s : RegistryState) (d : String), d ∉ l →
      mapLookup ((l.foldl (cleanupOne now) s)).connections d
        = mapLookup s.connections d := by
  induction l with
  | nil => intro s d _; rfl
  | cons e t ih =>
    intro s d h
    rw [List.foldl_cons]
    have hd : d ≠ e := fun he => h (he ▸ List.mem_cons_self e t)
    have ht : d ∉ t := fun hx => h (List.mem_cons_of_mem e hx)
    rw [ih _ d ht, cleanupOne_lookup_other now s e d hd]

theorem cleanupOne_logs_mono (now : Nat) (s : RegistryState) (e : String)
    (x : LogEntry) (h : x ∈ s.logs) : x ∈ (cleanupOne now s e).logs := by
  unfold cleanupOne
  cases he : mapLookup s.connections e with
  | none => exact h
  | some c => exact List.mem_append_left _ h

theorem foldl_cleanupOne_logs_mono (now : Nat) (l : List String) :
    ∀ (s : RegistryState) (x : LogEntry), x ∈ s.logs →
      x ∈ ((l.foldl (cleanupOne now) s)).logs := by
  induction l with
  | nil => intro s x h; exact h
  | cons e t ih =>
    intro s x h
    rw [List.foldl_cons]
    exact ih _ x (cleanupOne_logs_mono now s e x h)

theorem foldl_cleanupOne_log_added (now : Nat) (l : List String) :
    ∀ (s : RegistryState) (d : String) (c : DeviceConnectionInfo), d ∈ l →
      mapLookup s.connections d = some c →
      mkLogEntry d DeviceConnectionStatus.OFFLINE c.protocol (cleanupRecord c now)
        ∈ ((l.foldl (cleanupOne now) s)).logs := by
  induction l with
  | nil => intro s d c h; cases h
  | cons e t ih =>
    intro s d c h hc
    rw [List.foldl_cons]
    by_cases hd : d = e
    · subst hd
      have hstep : mkLogEntry d DeviceConnectionStatus.OFFLINE c.protocol
          (cleanupRecord c now) ∈ (cleanupOne now s d).logs := by
        unfold cleanupOne
        rw [hc]
        exact List.mem_append_right _ (List.mem_singleton.mpr rfl)
      exact foldl_cleanupOne_logs_mono now t _ _ hstep
    · have ht : d ∈ t := by
        cases List.mem_cons.mp h with
        | inl hx => exact absurd hx hd
        | inr hx => exact hx
      have hc' : mapLookup (cleanupOne now s e).connections d = some c := by
        rw [cleanupOne_lookup_other now s e d hd]
        exact hc
      exact ih _ d c ht hc'

theorem mapLookup_some_mem {α : Type} (m : SMap α) (k : String) (v : α)
    (h : mapLookup m k = some v) : (k, v) ∈ m := by
  unfold mapLookup at h
  obtain ⟨p, hp, hv⟩ := Option.map_eq_some'.mp h
  have hmem := List.mem_of_find?_eq_some hp
  have hkey : p.1 = k := by simpa using List.find?_some hp
  have : p = (k, v) := by
    cases p
    simp_all
  rw [← this]
  exact hmem

theorem mapLookup_of_mem_nodup {α : Type} (m : SMap α) (k : String) (v : α)
    (hn : (m.map Prod.fst).Nodup) (hm : (k, v) ∈ m) :
    mapLookup m k = some v := by
  induction m with
  | nil => cases hm
  | cons p t ih =>
    rw [List.map_cons, List.nodup_cons] at hn
    cases List.mem_cons.mp hm with
    | inl hx =>
      rw [← hx]
      unfold mapLookup
      rw [List.find?_cons]
      simp
    | inr hx =>
      have hk : p.1 ≠ k := by
        intro he
        exact hn.1 (he ▸ List.mem_map.mpr ⟨(k, v), hx, rfl⟩)
      unfold mapLookup
      rw [List.find?_cons]
      have : (p.1 == k) = false := by simpa using hk
      rw [this]
      exact ih hn.2 hx

theorem mem_devicesToCleanup (st : RegistryState) (now : Nat) (d : String)
    (c : DeviceConnectionInfo) (hc : mapLookup st.connections d = some c)
    (hcrit : cleanupCriterion now c = true) :
    d ∈ (st.connections.filter (fun p => cleanupCriterion now p.2)).map (·.1) := by
  apply List.mem_map.mpr
  refine ⟨(d, c), ?_, rfl⟩
  apply List.mem_filter.mpr
  exact ⟨mapLookup_some_mem _ _ _ hc, hcrit⟩

theorem not_mem_devicesToCleanup (st : RegistryState) (now : Nat) (d : String)
    (c : DeviceConnectionInfo) (hn : (st.connections.map Prod.fst).Nodup)
    (hc : mapLookup st.connections d = some c)
    (hcrit : cleanupCriterion now c = false) :
    d ∉ (st.connections.filter (fun p => cleanupCriterion now p.2)).map (·.1) := by
  intro hmem
  obtain ⟨q, hq, hq1⟩ := List.mem_map.mp hmem
  have hqf := List.mem_filter.mp hq
  have hqc : mapLookup st.connections q.1 = some q.2 := by
    apply mapLookup_of_mem_nodup _ _ _ hn
    exact hqf.1
  rw [hq1, hc] at hqc
  injection hqc with hqc
  rw [← hqc] at hqf
  rw [hcrit] at hqf
  simp at hqf

theorem cleanupCriterion_iff (now : Nat) (c : DeviceConnectionInfo) :
    cleanupCriterion now c = true
      ↔ ((c.status = DeviceConnectionStatus.INACTIVE
            ∨ c.status = DeviceConnectionStatus.ERROR)
          ∧ now - c.lastActivityAt > CLEANUP_THRESHOLD) := by
  unfold cleanupCriterion
  simp [Bool.or_eq_true, Bool.and_eq_true]

/-- C7 (amended): the sweeper evicts exactly the records whose status is
INACTIVE or ERROR and whose `lastActivityAt` lies more than 24 hours in the
past — not records merely in those statuses for over 24 hours — and for
each evicted record it writes a final OFFLINE persistence entry whose
metadata carries `cleanupReason`; all other records are left untouched. -/
theorem sweeper_evicts_stale_by_lastActivity (st : RegistryState) (now : Nat)
    (d : String) (c : DeviceConnectionInfo)
    (hn : (st.connections.map Prod.fst).Nodup)
    (hc : mapLookup st.connections d = some c) :
    (((c.status = DeviceConnectionStatus.INACTIVE
         ∨ c.status = DeviceConnectionStatus.ERROR)
       ∧ now - c.lastActivityAt > CLEANUP_THRESHOLD) →
       mapLookup (cleanupInactiveConnections st now).connections d = none ∧
       mkLogEntry d DeviceConnectionStatus.OFFLINE c.protocol (cleanupRecord c now)
         ∈ (cleanupInactiveConnections st now).logs ∧
       objGet ((cleanupRecord c now).metadata.getD []) "cleanupReason"
         = some "Inactive for more than 24 hours") ∧
    (¬ ((c.status = DeviceConnectionStatus.INACTIVE
          ∨ c.status = DeviceConnectionStatus.ERROR)
        ∧ now - c.lastActivityAt > CLEANUP_THRESHOLD) →
       mapLookup (cleanupInactiveConnections st now).connections d = some c) := by
  constructor
  · intro hcrit
    have hcritb : cleanupCriterion now c = true :=
      (cleanupCriterion_iff now c).mpr hcrit
    have hmem := mem_devicesToCleanup st now d c hc hcritb
    refine ⟨?_, ?_, ?_⟩
    · unfold cleanupInactiveConnections
      exact foldl_cleanupOne_mem_removed now _ st d hmem
    · unfold cleanupInactiveConnections
      exact foldl_cleanupOne_log_added now _ st d c hmem hc
    · unfold cleanupRecord
      simp only [Option.getD_some]
      rw [objGet_objMerge]
      rfl
  · intro hcrit
    have hcritb : cleanupCriterion now c = false := by
      cases hb : cleanupCriterion now c with
      | false => rfl
      | true => exact absurd ((cleanupCriterion_iff now c).mp hb) hcrit
    have hnm := not_mem_devicesToCleanup st now d c hn hc hcritb
    unfold cleanupInactiveConnections
    rw [foldl_cleanupOne_notmem now _ st d hnm]
    exact hc

/-- Witness for C7 (amended): a stale ERROR record is evicted with its
final OFFLINE log entry, while a fresh ONLINE record survives the sweep. -/
theorem sweeper_evicts_stale_witness :
    (mapLookup (cleanupInactiveConnections c7wst 90000000).connections "e" = none ∧
     mkLogEntry "e" DeviceConnectionStatus.OFFLINE c7werr.protocol
       (cleanupRecord c7werr 90000000)
       ∈ (cleanupInactiveConnections c7wst 90000000).logs ∧
     objGet ((cleanupRecord c7werr 90000000).metadata.getD []) "cleanupReason"
       = some "Inactive for more than 24 hours") ∧
    mapLookup (cleanupInactiveConnections c7wst 90000000).connections "f"
      = some c7won :=
  ⟨(sweeper_evicts_stale_by_lastActivity c7wst 90000000 "e" c7werr (by decide)
      (by decide)).1 (by decide),
   (sweeper_evicts_stale_by_lastActivity c7wst 90000000 "f" c7won (by decide)
      (by decide)).2 (by decide)⟩

/-- Counterexample for C7 as stated: a record that has been continuously
INACTIVE since t = 1000 ms is still INACTIVE when the sweeper runs more
than 24 hours later, yet the sweep leaves it in the registry because a
protocol activity signal refreshed `lastActivityAt` without changing the
status. -/
theorem sweeper_in_state_counterexample :
    (mapLookup c7stB.connections "d").map (fun x => x.status)
      = some DeviceConnectionStatus.INACTIVE ∧
    (mapLookup c7stC.connections "d").map (fun x => x.status)
      = some DeviceConnectionStatus.INACTIVE ∧
    90000001 - 1000 > CLEANUP_THRESHOLD ∧
    (mapLookup c7stD.connections "d").map (fun x => x.status)
      = some DeviceConnectionStatus.INACTIVE := by
  decide

end IotPresence
